import Mathlib

/-!
Verification of the capture/input core of `rustdesk-but-private`.

Shallow embedding of:
- `libs/scrap/src/wayland/drm.rs` (`DrmCapturable`, `DrmRecorder`)
- `libs/scrap/src/common/wayland.rs` (`Display::all`, `Display::primary`,
  `Capturer::frame`)
- `src/server/evdev_input.rs` (`EvdevInputKeyboard`, `EvdevInputMouse`)

Bytes are modelled as `Nat` (the conversions only permute and zero bytes, no
arithmetic), `usize` as `Nat`, `i32` coordinates as `Int`.  External calls
(the PipeWire query, kernel `emit`, framebuffer reads) are modelled as
explicit parameters holding their outcome.
-/

/-- `DrmCapturable` from drm.rs: path plus hardcoded geometry and format. -/
structure DrmCapturable where
  path : String
  width : Nat
  height : Nat
  format : Nat
deriving DecidableEq, Repr

/-- `DrmCapturable::new` from drm.rs: always returns `Ok` with hardcoded
1920x1080 AR24 fields; it never touches the device node. -/
def DrmCapturable.new (path : String) : Except String DrmCapturable :=
  .ok { path := path, width := 1920, height := 1080, format := 0x34325241 }

/-- One converted pixel of `DrmRecorder::capture`'s ARGB-to-BGR0 loop body:
`bgr0[4p] = buf[4p+2]`, `bgr0[4p+1] = buf[4p+1]`, `bgr0[4p+2] = buf[4p]`,
`bgr0[4p+3] = 0`. -/
def convertPixel (buffer : List Nat) (p : Nat) : List Nat :=
  [buffer.getD (p * 4 + 2) 0, buffer.getD (p * 4 + 1) 0, buffer.getD (p * 4) 0, 0]

/-- The double loop of `DrmRecorder::capture` (drm.rs lines 86-97): pixels are
visited in order `i*width + j` for `i in 0..height`, `j in 0..width`, which is
`0, 1, ..., height*width - 1`; each writes 4 output bytes at the same offset
as its 4 input bytes. -/
def DrmRecorder.convert (width height : Nat) (buffer : List Nat) : List Nat :=
  (List.range (height * width)).flatMap (convertPixel buffer)

/-- `PixelProvider` from the capturable boundary.  `BGR0`, `RGB0` and `NONE`
are the variants matched in `Capturer::frame` (wayland.rs lines 44-58); the
source's catch-all `_` arm covers the remaining variants of the enum (its
defining file is outside this excerpt), represented here by `unsupported`,
per the spec's recorder boundary {BGR0, RGB0, NONE, other/unsupported}. -/
inductive PixelProvider where
  | BGR0 (w h : Nat) (data : List Nat)
  | RGB0 (w h : Nat) (data : List Nat)
  | NONE
  | unsupported
deriving DecidableEq, Repr

/-- `DrmRecorder::capture` (drm.rs lines 76-108): on a successful
`read_exact` of `width*height*4` bytes, convert ARGB to BGR0 and return
`PixelProvider::BGR0(width, height, converted)`; a read error propagates.
`readResult` carries the outcome of the framebuffer read. -/
def DrmRecorder.capture (cap : DrmCapturable) (readResult : Except String (List Nat)) :
    Except String PixelProvider :=
  match readResult with
  | .ok buffer =>
      .ok (PixelProvider.BGR0 cap.width cap.height
        (DrmRecorder.convert cap.width cap.height buffer))
  | .error e => .error e

-- Helper lemmas about the conversion.

theorem convert_aux_length (buffer : List Nat) (n : Nat) :
    ((List.range n).flatMap (convertPixel buffer)).length = 4 * n := by
  induction n with
  | zero => simp
  | succ m ih =>
      rw [List.range_succ, List.flatMap_append]
      simp [ih, convertPixel]
      omega

theorem convert_aux_getD (buffer : List Nat) (n i r : Nat) (hi : i < n) (hr : r < 4) :
    ((List.range n).flatMap (convertPixel buffer)).getD (4 * i + r) 0 =
      (convertPixel buffer i).getD r 0 := by
  induction n with
  | zero => omega
  | succ m ih =>
      rw [List.range_succ, List.flatMap_append]
      rcases Nat.lt_or_ge i m with h | h
      · rw [List.getD_append]
        · exact ih h
        · rw [convert_aux_length]; omega
      · have him : i = m := by omega
        subst him
        rw [List.getD_append_right]
        · rw [convert_aux_length]
          have : 4 * i + r - 4 * i = r := by omega
          rw [this]
          simp [convertPixel]
        · rw [convert_aux_length]; omega

theorem convert_length (width height : Nat) (buffer : List Nat) :
    (DrmRecorder.convert width height buffer).length = width * height * 4 := by
  rw [DrmRecorder.convert, convert_aux_length]
  ring

theorem convert_getD (width height : Nat) (buffer : List Nat) (i r : Nat)
    (hi : i < width * height) (hr : r < 4) :
    (DrmRecorder.convert width height buffer).getD (4 * i + r) 0 =
      (convertPixel buffer i).getD r 0 := by
  rw [DrmRecorder.convert]
  exact convert_aux_getD buffer (height * width) i r
    (by rw [Nat.mul_comm height width]; exact hi) hr

/-- C3: for every input buffer of length width*height*4 and every pixel `i`,
the DRM recorder's capture conversion satisfies `out[i*4] = in[i*4+2]`,
`out[i*4+1] = in[i*4+1]`, `out[i*4+2] = in[i*4]`, `out[i*4+3] = 0`, and the
output length equals width*height*4; moreover `capture` wraps exactly this
conversion in a `BGR0` provider. -/
theorem drm_capture_argb_to_bgr0 (cap : DrmCapturable) (buffer : List Nat)
    (_hlen : buffer.length = cap.width * cap.height * 4) :
    DrmRecorder.capture cap (.ok buffer) =
      .ok (PixelProvider.BGR0 cap.width cap.height
        (DrmRecorder.convert cap.width cap.height buffer)) ∧
    (DrmRecorder.convert cap.width cap.height buffer).length =
      cap.width * cap.height * 4 ∧
    ∀ i, i < cap.width * cap.height →
      (DrmRecorder.convert cap.width cap.height buffer).getD (i * 4) 0 =
          buffer.getD (i * 4 + 2) 0 ∧
      (DrmRecorder.convert cap.width cap.height buffer).getD (i * 4 + 1) 0 =
          buffer.getD (i * 4 + 1) 0 ∧
      (DrmRecorder.convert cap.width cap.height buffer).getD (i * 4 + 2) 0 =
          buffer.getD (i * 4) 0 ∧
      (DrmRecorder.convert cap.width cap.height buffer).getD (i * 4 + 3) 0 = 0 := by
  refine ⟨rfl, convert_length _ _ _, fun i hi => ?_⟩
  have h0 := convert_getD cap.width cap.height buffer i 0 hi (by omega)
  have h1 := convert_getD cap.width cap.height buffer i 1 hi (by omega)
  have h2 := convert_getD cap.width cap.height buffer i 2 hi (by omega)
  have h3 := convert_getD cap.width cap.height buffer i 3 hi (by omega)
  rw [Nat.mul_comm i 4]
  refine ⟨?_, ?_, ?_, ?_⟩
  · simpa [convertPixel, Nat.mul_comm i 4] using h0
  · simpa [convertPixel, Nat.mul_comm i 4] using h1
  · simpa [convertPixel, Nat.mul_comm i 4] using h2
  · simpa [convertPixel] using h3

/-- Witness for C3 at a concrete 1x1 capturable and buffer. -/
theorem drm_capture_argb_to_bgr0_witness :
    let cap : DrmCapturable := ⟨"/dev/fb0", 1, 1, 0x34325241⟩
    let buf : List Nat := [10, 20, 30, 40]
    buf.length = cap.width * cap.height * 4 ∧
    (DrmRecorder.capture cap (.ok buf) =
        .ok (PixelProvider.BGR0 1 1 (DrmRecorder.convert 1 1 buf)) ∧
      (DrmRecorder.convert cap.width cap.height buf).length =
        cap.width * cap.height * 4 ∧
      ∀ i, i < cap.width * cap.height →
        (DrmRecorder.convert cap.width cap.height buf).getD (i * 4) 0 =
            buf.getD (i * 4 + 2) 0 ∧
        (DrmRecorder.convert cap.width cap.height buf).getD (i * 4 + 1) 0 =
            buf.getD (i * 4 + 1) 0 ∧
        (DrmRecorder.convert cap.width cap.height buf).getD (i * 4 + 2) 0 =
            buf.getD (i * 4) 0 ∧
        (DrmRecorder.convert cap.width cap.height buf).getD (i * 4 + 3) 0 = 0) :=
  ⟨by decide, drm_capture_argb_to_bgr0 ⟨"/dev/fb0", 1, 1, 0x34325241⟩ [10, 20, 30, 40] (by decide)⟩

/-- A 2x2 source buffer whose every pixel has bytes (0,0,255,0) in the
backend's ARGB layout. -/
def blueArgb2x2 : List Nat :=
  [0, 0, 255, 0, 0, 0, 255, 0, 0, 0, 255, 0, 0, 0, 255, 0]

/-- A 2x2 DRM capturable (the struct fields are public in the source). -/
def drmCap2x2 : DrmCapturable := ⟨"/dev/fb0", 2, 2, 0x34325241⟩

/-- C4 counterexample: capturing the all-(0,0,255,0) 2x2 ARGB buffer yields
output pixels (255,0,0,0), not (0,0,255,0) as the claim states — byte 0 of
the first output pixel is 255, not 0. -/
theorem drm_capture_blue_counterexample :
    DrmRecorder.capture drmCap2x2 (.ok blueArgb2x2) =
      .ok (PixelProvider.BGR0 2 2
        [255, 0, 0, 0, 255, 0, 0, 0, 255, 0, 0, 0, 255, 0, 0, 0]) ∧
    ¬ (DrmRecorder.convert 2 2 blueArgb2x2).getD 0 0 = 0 := by
  constructor
  · rfl
  · decide

/-- C4 amended: for every capturable and every source buffer of matching
length whose every pixel has bytes (0,0,255,0) in ARGB layout, a successful
capture returns a BGR0 frame in which every pixel's 4 bytes equal
(255,0,0,0): the byte at offset 2 of each source pixel lands in byte 0 of
the canonical B,G,R,unused order, the other channels are zero. -/
theorem drm_capture_blue_pixels (cap : DrmCapturable) (buffer : List Nat)
    (hlen : buffer.length = cap.width * cap.height * 4)
    (hblue : ∀ j, j < buffer.length →
      buffer.getD j 0 = [0, 0, 255, 0].getD (j % 4) 0) :
    DrmRecorder.capture cap (.ok buffer) =
      .ok (PixelProvider.BGR0 cap.width cap.height
        (DrmRecorder.convert cap.width cap.height buffer)) ∧
    (DrmRecorder.convert cap.width cap.height buffer).length =
      cap.width * cap.height * 4 ∧
    ∀ j, j < cap.width * cap.height * 4 →
      (DrmRecorder.convert cap.width cap.height buffer).getD j 0 =
        [255, 0, 0, 0].getD (j % 4) 0 := by
  refine ⟨rfl, convert_length _ _ _, fun j hj => ?_⟩
  have hi : j / 4 < cap.width * cap.height := by omega
  have hr : j % 4 < 4 := by omega
  have hdecomp : 4 * (j / 4) + j % 4 = j := by omega
  have hkey := convert_getD cap.width cap.height buffer (j / 4) (j % 4) hi hr
  rw [← hdecomp, hkey]
  have hcase : j % 4 = 0 ∨ j % 4 = 1 ∨ j % 4 = 2 ∨ j % 4 = 3 := by omega
  rcases hcase with hc | hc | hc | hc <;> rw [hc]
  · have hb := hblue (j / 4 * 4 + 2) (by omega)
    have hm : (j / 4 * 4 + 2) % 4 = 2 := by omega
    rw [hm] at hb
    simpa [convertPixel] using hb
  · have hb := hblue (j / 4 * 4 + 1) (by omega)
    have hm : (j / 4 * 4 + 1) % 4 = 1 := by omega
    rw [hm] at hb
    have hm2 : (4 * (j / 4) + 1) % 4 = 1 := by omega
    rw [hm2]
    simpa [convertPixel] using hb
  · have hb := hblue (j / 4 * 4) (by omega)
    have hm : (j / 4 * 4) % 4 = 0 := by omega
    rw [hm] at hb
    have hm2 : (4 * (j / 4) + 2) % 4 = 2 := by omega
    rw [hm2]
    simpa [convertPixel] using hb
  · have hm2 : (4 * (j / 4) + 3) % 4 = 3 := by omega
    rw [hm2]
    simp [convertPixel]

/-- Witness for the amended C4 at the 2x2 all-blue buffer. -/
theorem drm_capture_blue_pixels_witness :
    blueArgb2x2.length = drmCap2x2.width * drmCap2x2.height * 4 ∧
    (∀ j, j < blueArgb2x2.length →
      blueArgb2x2.getD j 0 = [0, 0, 255, 0].getD (j % 4) 0) ∧
    (DrmRecorder.capture drmCap2x2 (.ok blueArgb2x2) =
        .ok (PixelProvider.BGR0 drmCap2x2.width drmCap2x2.height
          (DrmRecorder.convert drmCap2x2.width drmCap2x2.height blueArgb2x2)) ∧
      (DrmRecorder.convert drmCap2x2.width drmCap2x2.height blueArgb2x2).length =
        drmCap2x2.width * drmCap2x2.height * 4 ∧
      ∀ j, j < drmCap2x2.width * drmCap2x2.height * 4 →
        (DrmRecorder.convert drmCap2x2.width drmCap2x2.height blueArgb2x2).getD j 0 =
          [255, 0, 0, 0].getD (j % 4) 0) :=
  ⟨by decide, by decide, drm_capture_blue_pixels drmCap2x2 blueArgb2x2 (by decide) (by decide)⟩

/-- `io::Error` as observed from this module: `wouldBlock` is the
distinguished no-frame-yet kind (`ErrorKind::WouldBlock`), `notFound` the
kind used by `Display::primary`, and `other` carries the message of errors
built by `map_err`'s default path (`io::Error::new(Other, msg)`). -/
inductive IoError where
  | wouldBlock
  | notFound
  | other (msg : String)
deriving DecidableEq, Repr

/-- `map_err` from wayland.rs with no override installed in the `MAP_ERR`
global (its default state): wrap the error text in a generic Other-kind
error. -/
def map_err (e : String) : IoError := .other e

/-- The two `Pixfmt` tags used by `Capturer::frame`. -/
inductive Pixfmt where
  | BGRA
  | RGBA
deriving DecidableEq, Repr

/-- `PixelBuffer::new(data, fmt, w, h)` as constructed in `Capturer::frame`
(the type itself lives in the x11 module, outside this excerpt; only the
four constructor fields are relied on). -/
structure PixelBuffer where
  data : List Nat
  fmt : Pixfmt
  width : Nat
  height : Nat
deriving DecidableEq, Repr

/-- The `Frame` variant produced on the wayland path. -/
inductive Frame where
  | pixelBuffer (pb : PixelBuffer)
deriving DecidableEq, Repr

/-- `Capturer::frame` (wayland.rs lines 43-60): call the recorder's
`capture` with the timeout and map its result.  `recorder` gives the
recorder's result as a function of the timeout passed to it. -/
def Capturer.frame (recorder : Nat → Except String PixelProvider) (timeout : Nat) :
    Except IoError Frame :=
  match recorder timeout with
  | .error e => .error (map_err e)
  | .ok (PixelProvider.BGR0 w h x) => .ok (Frame.pixelBuffer ⟨x, Pixfmt.BGRA, w, h⟩)
  | .ok (PixelProvider.RGB0 w h x) => .ok (Frame.pixelBuffer ⟨x, Pixfmt.RGBA, w, h⟩)
  | .ok PixelProvider.NONE => .error IoError.wouldBlock
  | .ok PixelProvider.unsupported => .error (map_err "Invalid data")

/-- C2: for every timeout and recorder result, `Capturer::frame` has exactly
three outcome classes — BGR0/RGB0 yield a frame tagged BGRA/RGBA, NONE
yields the would-block outcome (identically on every repeated call: the
final conjunct runs an arbitrary sequence of calls against a recorder that
always reports NONE), and any other result is an "Invalid data" failure;
the classification conjunct shows every input falls in one of the three
classes, so the function is total (never a panic). -/
theorem capturer_frame_outcomes (recorder : Nat → Except String PixelProvider)
    (timeout : Nat) :
    (∀ w h x, recorder timeout = .ok (PixelProvider.BGR0 w h x) →
      Capturer.frame recorder timeout = .ok (Frame.pixelBuffer ⟨x, Pixfmt.BGRA, w, h⟩)) ∧
    (∀ w h x, recorder timeout = .ok (PixelProvider.RGB0 w h x) →
      Capturer.frame recorder timeout = .ok (Frame.pixelBuffer ⟨x, Pixfmt.RGBA, w, h⟩)) ∧
    (recorder timeout = .ok PixelProvider.NONE →
      Capturer.frame recorder timeout = .error IoError.wouldBlock) ∧
    (recorder timeout = .ok PixelProvider.unsupported →
      Capturer.frame recorder timeout = .error (IoError.other "Invalid data")) ∧
    ((∃ pb, Capturer.frame recorder timeout = .ok (Frame.pixelBuffer pb)) ∨
      Capturer.frame recorder timeout = .error IoError.wouldBlock ∨
      ∃ m, Capturer.frame recorder timeout = .error (IoError.other m)) ∧
    (∀ recSeq : Nat → Nat → Except String PixelProvider,
      (∀ k, recSeq k timeout = .ok PixelProvider.NONE) →
      ∀ k, Capturer.frame (recSeq k) timeout = .error IoError.wouldBlock) := by
  refine ⟨?_, ?_, ?_, ?_, ?_, ?_⟩
  · intro w h x hx
    simp [Capturer.frame, hx]
  · intro w h x hx
    simp [Capturer.frame, hx]
  · intro hx
    simp [Capturer.frame, hx]
  · intro hx
    simp [Capturer.frame, hx, map_err]
  · rcases hrec : recorder timeout with e | p
    · exact Or.inr (Or.inr ⟨e, by simp [Capturer.frame, hrec, map_err]⟩)
    · rcases p with ⟨w, ht, x⟩ | ⟨w, ht, x⟩ | _ | _
      · exact Or.inl ⟨⟨x, Pixfmt.BGRA, w, ht⟩, by simp [Capturer.frame, hrec]⟩
      · exact Or.inl ⟨⟨x, Pixfmt.RGBA, w, ht⟩, by simp [Capturer.frame, hrec]⟩
      · exact Or.inr (Or.inl (by simp [Capturer.frame, hrec]))
      · exact Or.inr (Or.inr ⟨"Invalid data", by simp [Capturer.frame, hrec, map_err]⟩)
  · intro recSeq hnone k
    simp [Capturer.frame, hnone k]

/-- Witness for C2: a recorder that always reports NONE yields the
would-block outcome. -/
theorem capturer_frame_outcomes_witness :
    Capturer.frame (fun _ => .ok PixelProvider.NONE) 100 = .error IoError.wouldBlock :=
  (capturer_frame_outcomes (fun _ => .ok PixelProvider.NONE) 100).2.2.1 rfl

/-- A capturable as wrapped by `Display` in wayland.rs: either a PipeWire
capturable (opaque handle; its type is defined outside this excerpt) or a
DRM one. -/
inductive Capturable where
  | pw (handle : Nat)
  | drm (d : DrmCapturable)
deriving DecidableEq, Repr

/-- `Display(Box<dyn Capturable>)` from wayland.rs. -/
structure Display where
  cap : Capturable
deriving DecidableEq, Repr

/-- The DRM-then-framebuffer fallback tail of `Display::all` (wayland.rs
lines 92-108): on a card0 success return exactly that one display, else on
an fb0 success return exactly that one, else fail with the aggregated
message. -/
def Display.drmFallback (card0 fb0 : Except String DrmCapturable) :
    Except IoError (List Display) :=
  match card0 with
  | .ok d => .ok [Display.mk (Capturable.drm d)]
  | .error _ =>
    match fb0 with
    | .ok d => .ok [Display.mk (Capturable.drm d)]
    | .error e => .error (map_err ("All capture methods failed: " ++ e))

/-- `Display::all` control flow (wayland.rs lines 74-109), with the outcomes
of its three external calls as parameters: `pw` is the result of
`pipewire::get_capturables()` (handles of the returned capturables), `card0`
the result of `DrmCapturable::new("/dev/dri/card0")` and `fb0` that of
`DrmCapturable::new("/dev/fb0")`.  A non-empty PipeWire success returns
exactly those capturables wrapped as displays; an empty success and an
error both fall through to the DRM fallback. -/
def Display.allGen (pw : Except String (List Nat))
    (card0 fb0 : Except String DrmCapturable) : Except IoError (List Display) :=
  match pw with
  | .ok capturables =>
      if capturables.isEmpty then Display.drmFallback card0 fb0
      else .ok (capturables.map fun x => Display.mk (Capturable.pw x))
  | .error _ => Display.drmFallback card0 fb0

/-- `Display::all` with the two `DrmCapturable::new` calls taken from the
source (they are infallible); only the PipeWire outcome remains external. -/
def Display.all (pw : Except String (List Nat)) : Except IoError (List Display) :=
  Display.allGen pw (DrmCapturable.new "/dev/dri/card0") (DrmCapturable.new "/dev/fb0")

/-- `Display::primary` (wayland.rs lines 66-72): propagate `Display::all`'s
error, return `NotFound` on an empty list, else remove and return the first
element. -/
def Display.primary (pw : Except String (List Nat)) : Except IoError Display :=
  match Display.all pw with
  | .error e => .error e
  | .ok all =>
    match all with
    | [] => .error IoError.notFound
    | d :: _ => .ok d

/-- C1: the enumeration follows the strict priority fallback chain — a
non-empty PipeWire result is returned as-is; an empty PipeWire result is
treated identically to a PipeWire error; in either fallback case a card0
success returns exactly one synthetic display and the result does not
depend on the fb0 outcome (the framebuffer step is never attempted); fb0 is
used only when card0 fails; and a failure is returned only when all three
steps failed. -/
theorem display_all_fallback_chain (pw : Except String (List Nat))
    (card0 fb0 : Except String DrmCapturable) :
    (∀ caps, pw = .ok caps → caps ≠ [] →
      Display.allGen pw card0 fb0 =
        .ok (caps.map fun x => Display.mk (Capturable.pw x))) ∧
    (∀ e, Display.allGen (.ok []) card0 fb0 = Display.allGen (.error e) card0 fb0) ∧
    ((pw = .ok [] ∨ ∃ e, pw = .error e) →
      (∀ d, card0 = .ok d → ∀ fb0a,
        Display.allGen pw card0 fb0a = .ok [Display.mk (Capturable.drm d)]) ∧
      (∀ e1 d, card0 = .error e1 → fb0 = .ok d →
        Display.allGen pw card0 fb0 = .ok [Display.mk (Capturable.drm d)]) ∧
      (∀ e1 e2, card0 = .error e1 → fb0 = .error e2 →
        Display.allGen pw card0 fb0 =
          .error (map_err ("All capture methods failed: " ++ e2)))) ∧
    (∀ err, Display.allGen pw card0 fb0 = .error err →
      (pw = .ok [] ∨ ∃ e, pw = .error e) ∧
      (∃ e1, card0 = .error e1) ∧ ∃ e2, fb0 = .error e2) := by
  refine ⟨?_, ?_, ?_, ?_⟩
  · intro caps hpw hne
    subst hpw
    simp [Display.allGen, List.isEmpty_iff, hne]
  · intro e
    simp [Display.allGen]
  · intro hpw
    have hfall : ∀ c f, Display.allGen pw c f = Display.drmFallback c f := by
      rcases hpw with h | ⟨e, h⟩ <;> subst h <;> intro c f <;> simp [Display.allGen]
    refine ⟨?_, ?_, ?_⟩
    · intro d hd fb0a
      subst hd
      rw [hfall]
      simp [Display.drmFallback]
    · intro e1 d h1 h2
      subst h1; subst h2
      rw [hfall]
      simp [Display.drmFallback]
    · intro e1 e2 h1 h2
      subst h1; subst h2
      rw [hfall]
      simp [Display.drmFallback]
  · intro err herr
    rcases hpw : pw with e | caps
    · subst hpw
      simp only [Display.allGen] at herr
      rcases hc : card0 with e1 | d
      · subst hc
        rcases hf : fb0 with e2 | d2
        · exact ⟨Or.inr ⟨e, rfl⟩, ⟨e1, rfl⟩, ⟨e2, rfl⟩⟩
        · subst hf
          simp [Display.drmFallback] at herr
      · subst hc
        simp [Display.drmFallback] at herr
    · subst hpw
      rcases caps with _ | ⟨c, cs⟩
      · simp only [Display.allGen, List.isEmpty_nil, if_pos] at herr
        rcases hc : card0 with e1 | d
        · subst hc
          rcases hf : fb0 with e2 | d2
          · exact ⟨Or.inl rfl, ⟨e1, rfl⟩, ⟨e2, rfl⟩⟩
          · subst hf
            simp [Display.drmFallback] at herr
        · subst hc
          simp [Display.drmFallback] at herr
      · simp [Display.allGen] at herr

/-- Witness for C1: PipeWire reports zero targets, card0 fails, fb0
succeeds — the fb0 display is returned. -/
theorem display_all_fallback_chain_witness :
    Display.allGen (.ok []) (.error "drm failed")
        (.ok ⟨"/dev/fb0", 1920, 1080, 0x34325241⟩) =
      .ok [Display.mk (Capturable.drm ⟨"/dev/fb0", 1920, 1080, 0x34325241⟩)] :=
  ((display_all_fallback_chain (.ok []) (.error "drm failed")
      (.ok ⟨"/dev/fb0", 1920, 1080, 0x34325241⟩)).2.2.1
    (Or.inl rfl)).2.1 "drm failed" _ rfl rfl

/-- C9: `DrmCapturable::new` is infallible, so `Display::all` never returns
a successful empty list, the NotFound branch of `Display::primary` is
unreachable, and whenever enumeration succeeds, `primary` returns the first
enumerated display. -/
theorem display_primary_first (pw : Except String (List Nat)) :
    DrmCapturable.new "/dev/dri/card0" =
      .ok ⟨"/dev/dri/card0", 1920, 1080, 0x34325241⟩ ∧
    ¬ Display.all pw = .ok [] ∧
    ¬ Display.primary pw = .error IoError.notFound ∧
    ∀ l, Display.all pw = .ok l →
      ∃ d t, l = d :: t ∧ Display.primary pw = .ok d := by
  have hall : ∃ d t, Display.all pw = .ok (d :: t) := by
    rcases pw with e | caps
    · exact ⟨_, [], rfl⟩
    · rcases caps with _ | ⟨c, cs⟩
      · exact ⟨_, [], rfl⟩
      · exact ⟨Display.mk (Capturable.pw c), cs.map fun x => Display.mk (Capturable.pw x),
          by simp [Display.all, Display.allGen]⟩
  obtain ⟨d, t, hdt⟩ := hall
  refine ⟨rfl, ?_, ?_, ?_⟩
  · rw [hdt]
    simp
  · simp [Display.primary, hdt]
  · intro l hl
    rw [hdt] at hl
    obtain rfl : d :: t = l := by injection hl
    exact ⟨d, t, rfl, by simp [Display.primary, hdt]⟩

/-- Witness for C9: with an empty PipeWire result, enumeration returns the
card0 display and `primary` returns it. -/
theorem display_primary_first_witness :
    ∃ d t,
      ([Display.mk (Capturable.drm ⟨"/dev/dri/card0", 1920, 1080, 0x34325241⟩)] :
          List Display) = d :: t ∧
      Display.primary (.ok []) = .ok d :=
  (display_primary_first (.ok [])).2.2.2 _ rfl

/-- The evdev key codes used by this file (`evdev::Key` constants named in
evdev_input.rs: the keyboard map's targets, the extra capability-list keys,
and the mouse buttons). -/
inductive EvdevKey where
  | KEY_A | KEY_B | KEY_C | KEY_D | KEY_E | KEY_F | KEY_G | KEY_H | KEY_I
  | KEY_J | KEY_K | KEY_L | KEY_M | KEY_N | KEY_O | KEY_P | KEY_Q | KEY_R
  | KEY_S | KEY_T | KEY_U | KEY_V | KEY_W | KEY_X | KEY_Y | KEY_Z
  | KEY_0 | KEY_1 | KEY_2 | KEY_3 | KEY_4 | KEY_5 | KEY_6 | KEY_7 | KEY_8 | KEY_9
  | KEY_SPACE | KEY_ENTER | KEY_BACKSPACE | KEY_TAB | KEY_ESC
  | KEY_LEFTSHIFT | KEY_RIGHTSHIFT | KEY_LEFTCTRL | KEY_RIGHTCTRL
  | KEY_LEFTALT | KEY_RIGHTALT | KEY_LEFTMETA | KEY_RIGHTMETA | KEY_CAPSLOCK
  | KEY_F1 | KEY_F2 | KEY_F3 | KEY_F4 | KEY_F5 | KEY_F6 | KEY_F7 | KEY_F8
  | KEY_F9 | KEY_F10 | KEY_F11 | KEY_F12
  | KEY_DELETE | KEY_HOME | KEY_END | KEY_PAGEUP | KEY_PAGEDOWN
  | KEY_UP | KEY_DOWN | KEY_LEFT | KEY_RIGHT
  | KEY_SYSRQ | KEY_SCROLLLOCK | KEY_PAUSE | KEY_INSERT
  | BTN_LEFT | BTN_RIGHT | BTN_MIDDLE | BTN_SIDE | BTN_EXTRA
deriving DecidableEq, Repr

/-- The abstract `enigo::Key` vocabulary as matched in
`map_enigo_key_to_evdev`; `other` stands for the remaining variants of the
(external) enum, which all hit the source's catch-all arm. -/
inductive Key where
  | Layout (c : Char)
  | Space | Return | Backspace | Tab | Escape
  | LeftShift | RightShift | LeftControl | RightControl
  | LeftAlt | RightAlt | LeftMeta | RightMeta | CapsLock
  | F1 | F2 | F3 | F4 | F5 | F6 | F7 | F8 | F9 | F10 | F11 | F12
  | Delete | Home | End | PageUp | PageDown
  | UpArrow | DownArrow | LeftArrow | RightArrow
  | other (n : Nat)
deriving DecidableEq, Repr

/-- The abstract `enigo::MouseButton` vocabulary as matched in
`map_enigo_button_to_evdev`; `other` stands for the remaining variants,
which hit the source's catch-all arm. -/
inductive MouseButton where
  | Left | Right | Middle | Back | Forward
  | other (n : Nat)
deriving DecidableEq, Repr

/-- `EvdevInputKeyboard::map_enigo_key_to_evdev` (evdev_input.rs lines
52-131). -/
def EvdevInputKeyboard.map_enigo_key_to_evdev (key : Key) : Option EvdevKey :=
  match key with
  | Key.Layout 'a' => some EvdevKey.KEY_A
  | Key.Layout 'b' => some EvdevKey.KEY_B
  | Key.Layout 'c' => some EvdevKey.KEY_C
  | Key.Layout 'd' => some EvdevKey.KEY_D
  | Key.Layout 'e' => some EvdevKey.KEY_E
  | Key.Layout 'f' => some EvdevKey.KEY_F
  | Key.Layout 'g' => some EvdevKey.KEY_G
  | Key.Layout 'h' => some EvdevKey.KEY_H
  | Key.Layout 'i' => some EvdevKey.KEY_I
  | Key.Layout 'j' => some EvdevKey.KEY_J
  | Key.Layout 'k' => some EvdevKey.KEY_K
  | Key.Layout 'l' => some EvdevKey.KEY_L
  | Key.Layout 'm' => some EvdevKey.KEY_M
  | Key.Layout 'n' => some EvdevKey.KEY_N
  | Key.Layout 'o' => some EvdevKey.KEY_O
  | Key.Layout 'p' => some EvdevKey.KEY_P
  | Key.Layout 'q' => some EvdevKey.KEY_Q
  | Key.Layout 'r' => some EvdevKey.KEY_R
  | Key.Layout 's' => some EvdevKey.KEY_S
  | Key.Layout 't' => some EvdevKey.KEY_T
  | Key.Layout 'u' => some EvdevKey.KEY_U
  | Key.Layout 'v' => some EvdevKey.KEY_V
  | Key.Layout 'w' => some EvdevKey.KEY_W
  | Key.Layout 'x' => some EvdevKey.KEY_X
  | Key.Layout 'y' => some EvdevKey.KEY_Y
  | Key.Layout 'z' => some EvdevKey.KEY_Z
  | Key.Layout '0' => some EvdevKey.KEY_0
  | Key.Layout '1' => some EvdevKey.KEY_1
  | Key.Layout '2' => some EvdevKey.KEY_2
  | Key.Layout '3' => some EvdevKey.KEY_3
  | Key.Layout '4' => some EvdevKey.KEY_4
  | Key.Layout '5' => some EvdevKey.KEY_5
  | Key.Layout '6' => some EvdevKey.KEY_6
  | Key.Layout '7' => some EvdevKey.KEY_7
  | Key.Layout '8' => some EvdevKey.KEY_8
  | Key.Layout '9' => some EvdevKey.KEY_9
  | Key.Space => some EvdevKey.KEY_SPACE
  | Key.Return => some EvdevKey.KEY_ENTER
  | Key.Backspace => some EvdevKey.KEY_BACKSPACE
  | Key.Tab => some EvdevKey.KEY_TAB
  | Key.Escape => some EvdevKey.KEY_ESC
  | Key.LeftShift => some EvdevKey.KEY_LEFTSHIFT
  | Key.RightShift => some EvdevKey.KEY_RIGHTSHIFT
  | Key.LeftControl => some EvdevKey.KEY_LEFTCTRL
  | Key.RightControl => some EvdevKey.KEY_RIGHTCTRL
  | Key.LeftAlt => some EvdevKey.KEY_LEFTALT
  | Key.RightAlt => some EvdevKey.KEY_RIGHTALT
  | Key.LeftMeta => some EvdevKey.KEY_LEFTMETA
  | Key.RightMeta => some EvdevKey.KEY_RIGHTMETA
  | Key.CapsLock => some EvdevKey.KEY_CAPSLOCK
  | Key.F1 => some EvdevKey.KEY_F1
  | Key.F2 => some EvdevKey.KEY_F2
  | Key.F3 => some EvdevKey.KEY_F3
  | Key.F4 => some EvdevKey.KEY_F4
  | Key.F5 => some EvdevKey.KEY_F5
  | Key.F6 => some EvdevKey.KEY_F6
  | Key.F7 => some EvdevKey.KEY_F7
  | Key.F8 => some EvdevKey.KEY_F8
  | Key.F9 => some EvdevKey.KEY_F9
  | Key.F10 => some EvdevKey.KEY_F10
  | Key.F11 => some EvdevKey.KEY_F11
  | Key.F12 => some EvdevKey.KEY_F12
  | Key.Delete => some EvdevKey.KEY_DELETE
  | Key.Home => some EvdevKey.KEY_HOME
  | Key.End => some EvdevKey.KEY_END
  | Key.PageUp => some EvdevKey.KEY_PAGEUP
  | Key.PageDown => some EvdevKey.KEY_PAGEDOWN
  | Key.UpArrow => some EvdevKey.KEY_UP
  | Key.DownArrow => some EvdevKey.KEY_DOWN
  | Key.LeftArrow => some EvdevKey.KEY_LEFT
  | Key.RightArrow => some EvdevKey.KEY_RIGHT
  | _ => none

/-- Relative axes declared by the virtual mouse. -/
inductive RelAxis where
  | REL_X | REL_Y | REL_WHEEL | REL_HWHEEL
deriving DecidableEq, Repr

/-- A low-level event as passed to `device.emit`: a key/button event with
value 1 (press) or 0 (release), a relative-axis event, or the
synchronization event `(SYN, 0, 0)`. -/
inductive InputEvent where
  | key (k : EvdevKey) (value : Int)
  | rel (axis : RelAxis) (value : Int)
  | syn
deriving DecidableEq, Repr

/-- `EvdevInputKeyboard::key_down` (evdev_input.rs lines 157-163): for a
mapped key, emit the key-press event then the sync event, each through a
fallible `emit` whose failure propagates (`?`); for an unmapped key, emit
nothing and return `Ok(())`.  `emitRes n` is the kernel's response to the
n-th emit call of this invocation; the second component lists the events
attempted before the call returned. -/
def EvdevInputKeyboard.key_down (emitRes : Nat → Except String Unit) (key : Key) :
    Except String Unit × List InputEvent :=
  match EvdevInputKeyboard.map_enigo_key_to_evdev key with
  | some k =>
    match emitRes 0 with
    | .error e => (.error e, [InputEvent.key k 1])
    | .ok _ =>
      match emitRes 1 with
      | .error e => (.error e, [InputEvent.key k 1, InputEvent.syn])
      | .ok _ => (.ok (), [InputEvent.key k 1, InputEvent.syn])
  | none => (.ok (), [])

/-- `EvdevInputKeyboard::key_up` (evdev_input.rs lines 165-170): for a
mapped key, attempt the key-release event and the sync event, discarding
both results (`let _ =`); the Rust function returns unit, so only the
attempted events are observable.  `emitRes` is accepted (and ignored) to
mirror that the kernel may reject either write. -/
def EvdevInputKeyboard.key_up (_emitRes : Nat → Except String Unit) (key : Key) :
    List InputEvent :=
  match EvdevInputKeyboard.map_enigo_key_to_evdev key with
  | some k => [InputEvent.key k 0, InputEvent.syn]
  | none => []

/-- `EvdevInputKeyboard::key_click` (evdev_input.rs lines 172-176):
`key_down` with its result discarded, a settle sleep (no observable event),
then `key_up` with its result discarded; the release's emit calls come
after the press's. -/
def EvdevInputKeyboard.key_click (emitRes : Nat → Except String Unit) (key : Key) :
    List InputEvent :=
  let down := EvdevInputKeyboard.key_down emitRes key
  down.2 ++ EvdevInputKeyboard.key_up (fun n => emitRes (n + down.2.length)) key

/-- `EvdevInputMouse` state (evdev_input.rs lines 179-185): bounding
width/height and the tracked pointer position.  The kernel device handle is
modelled by the event lists the operations produce. -/
structure EvdevInputMouse where
  width : Nat
  height : Nat
  current_x : Int
  current_y : Int
deriving DecidableEq, Repr

/-- `EvdevInputMouse::new` (evdev_input.rs lines 188-214): start tracking at
the centre of the bounds. -/
def EvdevInputMouse.new (width height : Nat) : EvdevInputMouse :=
  { width := width, height := height,
    current_x := (width : Int) / 2, current_y := (height : Int) / 2 }

/-- `EvdevInputMouse::map_enigo_button_to_evdev` (evdev_input.rs lines
216-225). -/
def EvdevInputMouse.map_enigo_button_to_evdev (button : MouseButton) : Option EvdevKey :=
  match button with
  | MouseButton.Left => some EvdevKey.BTN_LEFT
  | MouseButton.Right => some EvdevKey.BTN_RIGHT
  | MouseButton.Middle => some EvdevKey.BTN_MIDDLE
  | MouseButton.Back => some EvdevKey.BTN_SIDE
  | MouseButton.Forward => some EvdevKey.BTN_EXTRA
  | MouseButton.other _ => none

/-- Rust's `i32::clamp(lo, hi)`. -/
def clampInt (v lo hi : Int) : Int := if v < lo then lo else if v > hi then hi else v

/-- `EvdevInputMouse::mouse_move_to` (evdev_input.rs lines 237-252): compute
deltas against the tracked position; when at least one is non-zero, emit the
REL_X/REL_Y pair then sync and set the tracked position to exactly (x, y)
(no clamping); otherwise do nothing.  Emission results are discarded in the
source (`let _ =`). -/
def EvdevInputMouse.mouse_move_to (m : EvdevInputMouse) (x y : Int) :
    EvdevInputMouse × List InputEvent :=
  let dx := x - m.current_x
  let dy := y - m.current_y
  if dx ≠ 0 ∨ dy ≠ 0 then
    ({ m with current_x := x, current_y := y },
      [InputEvent.rel RelAxis.REL_X dx, InputEvent.rel RelAxis.REL_Y dy,
        InputEvent.syn])
  else (m, [])

/-- `EvdevInputMouse::mouse_move_relative` (evdev_input.rs lines 254-265):
when at least one delta is non-zero, emit the REL_X/REL_Y pair then sync
and update the tracked position clamped to [0, width] x [0, height];
otherwise do nothing. -/
def EvdevInputMouse.mouse_move_relative (m : EvdevInputMouse) (dx dy : Int) :
    EvdevInputMouse × List InputEvent :=
  if dx ≠ 0 ∨ dy ≠ 0 then
    ({ m with current_x := clampInt (m.current_x + dx) 0 (m.width : Int),
              current_y := clampInt (m.current_y + dy) 0 (m.height : Int) },
      [InputEvent.rel RelAxis.REL_X dx, InputEvent.rel RelAxis.REL_Y dy,
        InputEvent.syn])
  else (m, [])

/-- `EvdevInputMouse::mouse_down` (evdev_input.rs lines 267-272): for a
mapped button, attempt the press event then sync (results discarded); state
is untouched. -/
def EvdevInputMouse.mouse_down (m : EvdevInputMouse) (button : MouseButton) :
    EvdevInputMouse × List InputEvent :=
  match EvdevInputMouse.map_enigo_button_to_evdev button with
  | some k => (m, [InputEvent.key k 1, InputEvent.syn])
  | none => (m, [])

/-- `EvdevInputMouse::mouse_up` (evdev_input.rs lines 274-279): for a mapped
button, attempt the release event then sync (results discarded); state is
untouched. -/
def EvdevInputMouse.mouse_up (m : EvdevInputMouse) (button : MouseButton) :
    EvdevInputMouse × List InputEvent :=
  match EvdevInputMouse.map_enigo_button_to_evdev button with
  | some k => (m, [InputEvent.key k 0, InputEvent.syn])
  | none => (m, [])

/-- `EvdevInputMouse::mouse_click` (evdev_input.rs lines 281-285):
`mouse_down`, settle sleep, `mouse_up`. -/
def EvdevInputMouse.mouse_click (m : EvdevInputMouse) (button : MouseButton) :
    EvdevInputMouse × List InputEvent :=
  let down := EvdevInputMouse.mouse_down m button
  let up := EvdevInputMouse.mouse_up down.1 button
  (up.1, down.2 ++ up.2)

/-- `EvdevInputMouse::mouse_scroll_x` (evdev_input.rs lines 287-292):
unconditionally emit one REL_HWHEEL event then sync; state untouched. -/
def EvdevInputMouse.mouse_scroll_x (m : EvdevInputMouse) (delta : Int) :
    EvdevInputMouse × List InputEvent :=
  (m, [InputEvent.rel RelAxis.REL_HWHEEL delta, InputEvent.syn])

/-- `EvdevInputMouse::mouse_scroll_y` (evdev_input.rs lines 294-299):
unconditionally emit one REL_WHEEL event then sync; state untouched. -/
def EvdevInputMouse.mouse_scroll_y (m : EvdevInputMouse) (delta : Int) :
    EvdevInputMouse × List InputEvent :=
  (m, [InputEvent.rel RelAxis.REL_WHEEL delta, InputEvent.syn])

/-- After `mouse_move_to(x, y)` the tracked position is exactly (x, y) and
the bounds are unchanged, in both branches: when both deltas are zero the
source skips the update, but then (x, y) already equals the tracked
position. -/
theorem mouse_move_to_pos (m : EvdevInputMouse) (x y : Int) :
    (EvdevInputMouse.mouse_move_to m x y).1 =
      { m with current_x := x, current_y := y } := by
  by_cases hc : (x - m.current_x ≠ 0 ∨ y - m.current_y ≠ 0)
  · simp [EvdevInputMouse.mouse_move_to, hc]
  · push_neg at hc
    obtain ⟨hcx, hcy⟩ := hc
    have hx : x = m.current_x := by omega
    have hy : y = m.current_y := by omega
    subst hx
    subst hy
    simp [EvdevInputMouse.mouse_move_to]

/-- C5: `mouse_move_to` computes dx = x - current_x, dy = y - current_y,
emits the relative pair plus sync exactly when at least one delta is
non-zero, and leaves the tracked position exactly (x, y), unclamped;
`mouse_move_relative` emits the requested deltas when at least one is
non-zero and clamps the updated position to [0, width] x [0, height]; and
after `move_to(100, 50)` then `move_relative(10, -5)` the position is
(110, 45) clamped to the bounds with the second call's emitted delta
exactly (10, -5). -/
theorem mouse_move_tracking (m : EvdevInputMouse) (x y dx dy : Int) :
    ((x - m.current_x ≠ 0 ∨ y - m.current_y ≠ 0) →
      EvdevInputMouse.mouse_move_to m x y =
        ({ m with current_x := x, current_y := y },
          [InputEvent.rel RelAxis.REL_X (x - m.current_x),
            InputEvent.rel RelAxis.REL_Y (y - m.current_y), InputEvent.syn])) ∧
    (x - m.current_x = 0 ∧ y - m.current_y = 0 →
      EvdevInputMouse.mouse_move_to m x y = (m, [])) ∧
    (EvdevInputMouse.mouse_move_to m x y).1.current_x = x ∧
    (EvdevInputMouse.mouse_move_to m x y).1.current_y = y ∧
    ((dx ≠ 0 ∨ dy ≠ 0) →
      EvdevInputMouse.mouse_move_relative m dx dy =
        ({ m with current_x := clampInt (m.current_x + dx) 0 (m.width : Int),
                  current_y := clampInt (m.current_y + dy) 0 (m.height : Int) },
          [InputEvent.rel RelAxis.REL_X dx, InputEvent.rel RelAxis.REL_Y dy,
            InputEvent.syn])) ∧
    (dx = 0 ∧ dy = 0 → EvdevInputMouse.mouse_move_relative m dx dy = (m, [])) ∧
    (EvdevInputMouse.mouse_move_relative (EvdevInputMouse.mouse_move_to m 100 50).1
        10 (-5)).1.current_x = clampInt 110 0 (m.width : Int) ∧
    (EvdevInputMouse.mouse_move_relative (EvdevInputMouse.mouse_move_to m 100 50).1
        10 (-5)).1.current_y = clampInt 45 0 (m.height : Int) ∧
    (EvdevInputMouse.mouse_move_relative (EvdevInputMouse.mouse_move_to m 100 50).1
        10 (-5)).2 =
      [InputEvent.rel RelAxis.REL_X 10, InputEvent.rel RelAxis.REL_Y (-5),
        InputEvent.syn] := by
  have hm1 := mouse_move_to_pos m 100 50
  have hrel : EvdevInputMouse.mouse_move_relative
      (EvdevInputMouse.mouse_move_to m 100 50).1 10 (-5) =
      ({ m with current_x := clampInt 110 0 (m.width : Int),
                current_y := clampInt 45 0 (m.height : Int) },
        [InputEvent.rel RelAxis.REL_X 10, InputEvent.rel RelAxis.REL_Y (-5),
          InputEvent.syn]) := by
    rw [hm1]
    norm_num [EvdevInputMouse.mouse_move_relative]
  refine ⟨?_, ?_, ?_, ?_, ?_, ?_, ?_, ?_, ?_⟩
  · intro h
    simp [EvdevInputMouse.mouse_move_to, h]
  · rintro ⟨h1, h2⟩
    simp [EvdevInputMouse.mouse_move_to, h1, h2]
  · rw [mouse_move_to_pos]
  · rw [mouse_move_to_pos]
  · intro h
    simp [EvdevInputMouse.mouse_move_relative, h]
  · rintro ⟨h1, h2⟩
    subst h1
    subst h2
    simp [EvdevInputMouse.mouse_move_relative]
  · rw [hrel]
  · rw [hrel]
  · rw [hrel]

/-- Witness for C5: from the freshly-created 1920x1080 mouse (centre
(960, 540)), `move_to(100, 50)` emits the computed deltas and sets the
position to exactly (100, 50). -/
theorem mouse_move_tracking_witness :
    EvdevInputMouse.mouse_move_to (EvdevInputMouse.new 1920 1080) 100 50 =
      ({ EvdevInputMouse.new 1920 1080 with current_x := 100, current_y := 50 },
        [InputEvent.rel RelAxis.REL_X (100 - (EvdevInputMouse.new 1920 1080).current_x),
          InputEvent.rel RelAxis.REL_Y (50 - (EvdevInputMouse.new 1920 1080).current_y),
          InputEvent.syn]) :=
  (mouse_move_tracking (EvdevInputMouse.new 1920 1080) 100 50 10 (-5)).1 (by decide)

/-- C8: `mouse_down`, `mouse_up`, `mouse_click`, `mouse_scroll_x` and
`mouse_scroll_y` leave the whole mouse state (tracked position, width and
height) unchanged; only the movement operations mutate it. -/
theorem mouse_state_only_moved_by_moves (m : EvdevInputMouse) (b : MouseButton)
    (delta : Int) :
    (EvdevInputMouse.mouse_down m b).1 = m ∧
    (EvdevInputMouse.mouse_up m b).1 = m ∧
    (EvdevInputMouse.mouse_click m b).1 = m ∧
    (EvdevInputMouse.mouse_scroll_x m delta).1 = m ∧
    (EvdevInputMouse.mouse_scroll_y m delta).1 = m := by
  have hdown : (EvdevInputMouse.mouse_down m b).1 = m := by
    cases hmap : EvdevInputMouse.map_enigo_button_to_evdev b <;>
      simp [EvdevInputMouse.mouse_down, hmap]
  have hup : ∀ mm : EvdevInputMouse, (EvdevInputMouse.mouse_up mm b).1 = mm := by
    intro mm
    cases hmap : EvdevInputMouse.map_enigo_button_to_evdev b <;>
      simp [EvdevInputMouse.mouse_up, hmap]
  refine ⟨hdown, hup m, ?_, rfl, rfl⟩
  have hclick : (EvdevInputMouse.mouse_click m b).1 =
      (EvdevInputMouse.mouse_up (EvdevInputMouse.mouse_down m b).1 b).1 := rfl
  rw [hclick, hdown]
  exact hup m

/-- C10: for every delta, including zero, `mouse_scroll_x` emits exactly one
REL_HWHEEL event followed by one sync event and `mouse_scroll_y` exactly one
REL_WHEEL event followed by one sync event; scroll has no zero-delta
suppression. -/
theorem mouse_scroll_unconditional (m : EvdevInputMouse) (delta : Int) :
    EvdevInputMouse.mouse_scroll_x m delta =
      (m, [InputEvent.rel RelAxis.REL_HWHEEL delta, InputEvent.syn]) ∧
    EvdevInputMouse.mouse_scroll_y m delta =
      (m, [InputEvent.rel RelAxis.REL_WHEEL delta, InputEvent.syn]) :=
  ⟨rfl, rfl⟩

/-- C6: an abstract key with no entry in the mapping table makes `key_down`
emit zero events and return success, and the same no-op policy holds for
`key_up`, `key_click` and every mouse button operation with an unmapped
button. -/
theorem unmapped_key_button_noop (emitRes : Nat → Except String Unit)
    (key : Key) (b : MouseButton) (m : EvdevInputMouse)
    (hkey : EvdevInputKeyboard.map_enigo_key_to_evdev key = none)
    (hbtn : EvdevInputMouse.map_enigo_button_to_evdev b = none) :
    EvdevInputKeyboard.key_down emitRes key = (.ok (), []) ∧
    EvdevInputKeyboard.key_up emitRes key = [] ∧
    EvdevInputKeyboard.key_click emitRes key = [] ∧
    EvdevInputMouse.mouse_down m b = (m, []) ∧
    EvdevInputMouse.mouse_up m b = (m, []) ∧
    EvdevInputMouse.mouse_click m b = (m, []) := by
  refine ⟨?_, ?_, ?_, ?_, ?_, ?_⟩ <;>
    simp [EvdevInputKeyboard.key_down, EvdevInputKeyboard.key_up,
      EvdevInputKeyboard.key_click, EvdevInputMouse.mouse_down,
      EvdevInputMouse.mouse_up, EvdevInputMouse.mouse_click, hkey, hbtn]

/-- Witness for C6 at a concrete unmapped key and button. -/
theorem unmapped_key_button_noop_witness :
    EvdevInputKeyboard.key_down (fun _ => .ok ()) (Key.other 0) = (.ok (), []) ∧
    EvdevInputKeyboard.key_up (fun _ => .ok ()) (Key.other 0) = [] ∧
    EvdevInputKeyboard.key_click (fun _ => .ok ()) (Key.other 0) = [] ∧
    EvdevInputMouse.mouse_down (EvdevInputMouse.new 1920 1080) (MouseButton.other 0) =
      (EvdevInputMouse.new 1920 1080, []) ∧
    EvdevInputMouse.mouse_up (EvdevInputMouse.new 1920 1080) (MouseButton.other 0) =
      (EvdevInputMouse.new 1920 1080, []) ∧
    EvdevInputMouse.mouse_click (EvdevInputMouse.new 1920 1080) (MouseButton.other 0) =
      (EvdevInputMouse.new 1920 1080, []) :=
  unmapped_key_button_noop (fun _ => .ok ()) (Key.other 0) (MouseButton.other 0)
    (EvdevInputMouse.new 1920 1080) rfl rfl

/-- C7: for a mapped key, `key_down` propagates a failure of either of its
two emit calls to the caller; `key_up` always attempts both the release
event and the sync event and returns normally (its Rust signature has no
result); hence `key_click` attempts the release emission even when the
press emission failed. -/
theorem mapped_key_emission_policy (emitRes : Nat → Except String Unit)
    (key : Key) (k : EvdevKey)
    (hmap : EvdevInputKeyboard.map_enigo_key_to_evdev key = some k) :
    (∀ e, emitRes 0 = .error e →
      EvdevInputKeyboard.key_down emitRes key = (.error e, [InputEvent.key k 1])) ∧
    (∀ e, emitRes 0 = .ok () → emitRes 1 = .error e →
      EvdevInputKeyboard.key_down emitRes key =
        (.error e, [InputEvent.key k 1, InputEvent.syn])) ∧
    (emitRes 0 = .ok () → emitRes 1 = .ok () →
      EvdevInputKeyboard.key_down emitRes key =
        (.ok (), [InputEvent.key k 1, InputEvent.syn])) ∧
    EvdevInputKeyboard.key_up emitRes key = [InputEvent.key k 0, InputEvent.syn] ∧
    EvdevInputKeyboard.key_click emitRes key =
      (EvdevInputKeyboard.key_down emitRes key).2 ++
        [InputEvent.key k 0, InputEvent.syn] ∧
    (∀ e, emitRes 0 = .error e →
      EvdevInputKeyboard.key_click emitRes key =
        [InputEvent.key k 1, InputEvent.key k 0, InputEvent.syn]) := by
  refine ⟨?_, ?_, ?_, ?_, ?_, ?_⟩
  · intro e he
    simp [EvdevInputKeyboard.key_down, hmap, he]
  · intro e h0 h1
    simp [EvdevInputKeyboard.key_down, hmap, h0, h1]
  · intro h0 h1
    simp [EvdevInputKeyboard.key_down, hmap, h0, h1]
  · simp [EvdevInputKeyboard.key_up, hmap]
  · simp [EvdevInputKeyboard.key_click, EvdevInputKeyboard.key_up, hmap]
  · intro e he
    simp [EvdevInputKeyboard.key_click, EvdevInputKeyboard.key_down,
      EvdevInputKeyboard.key_up, hmap, he]

/-- Witness for C7: with a kernel that rejects every write, clicking a
mapped key still attempts the release after the failed press. -/
theorem mapped_key_emission_policy_witness :
    EvdevInputKeyboard.key_click (fun _ => .error "EIO") (Key.Layout 'a') =
      [InputEvent.key EvdevKey.KEY_A 1, InputEvent.key EvdevKey.KEY_A 0,
        InputEvent.syn] :=
  (mapped_key_emission_policy (fun _ => .error "EIO") (Key.Layout 'a')
    EvdevKey.KEY_A rfl).2.2.2.2.2 "EIO" rfl
